import Mathlib

/-!
Verification development for the deathgenerator2yaff converter.

The definitions below are a shallow embedding of `deathgenerator2yaff.py`:
sprite-sheet pixels, the glyph-coordinate table, the pattern classifier
(`analyze_font_pattern`), the spatial bright/dark analysis
(`detect_spatial_pattern`), the manual override table, the glyph extractor
(`extract_glyph_pixels`) and the per-glyph emitter (`generate_font_section`).

Conventions of the embedding:
* Pixel channels, coordinates and dimensions are natural numbers (the glyph
  tables hold pixel coordinates).
* Python float ratios (`0.1`, `0.8`, ...) are modelled exactly as rationals.
* The float comparison `(dx**2+dy**2)**0.5 > c` is modelled as the equivalent
  `dx^2+dy^2 > c^2` on rationals (both sides non-negative).
* A Python dict field that may be absent is an `Option`; boolean flags read
  with `.get(...)` (absent counts as false) are plain `Bool`s.
* `PIL.Image.getpixel` out of bounds raises and the caller catches, yielding
  not-ink; this is `pixAt` returning `none`.
-/

namespace DeathGen

/-- One RGBA pixel of the decoded sprite sheet. -/
structure Pix where
  r : Nat
  g : Nat
  b : Nat
  a : Nat
deriving DecidableEq, Repr

/-- A decoded sprite sheet: dimensions plus random pixel access.  Access
outside the bounds is not defined here; `pixAt` models the raising
`getpixel`. -/
structure Img where
  width : Nat
  height : Nat
  pix : Nat → Nat → Pix

/-- `getpixel` guarded by the `try`/`except` of the source: out-of-bounds
access yields `none`. -/
def pixAt (img : Img) (x y : Nat) : Option Pix :=
  if x < img.width ∧ y < img.height then some (img.pix x y) else none

/-- `max(r, g, b)`: the brightness used throughout the source. -/
def max3 (r g b : Nat) : Nat := max r (max g b)

/-- Brightness of a pixel. -/
def Pix.bright (p : Pix) : Nat := max3 p.r p.g p.b

/-- `range(lo, hi)` as a list. -/
def rangeBetween (lo hi : Nat) : List Nat := List.range' lo (hi - lo)

/-- Result of `detect_spatial_pattern`. -/
inductive SpatialPattern
  | shadow
  | outline
  | unknown
deriving DecidableEq, Repr

/-- Local coordinates of opaque (`a > 100`) pixels with brightness above 150,
collected over the clamped sample rectangle (`detect_spatial_pattern`,
first loop). -/
def brightPositions (img : Img) (x y w h : Nat) : List (Nat × Nat) :=
  (rangeBetween y (min (y + h) img.height)).flatMap fun py =>
    (rangeBetween x (min (x + w) img.width)).filterMap fun px =>
      let p := img.pix px py
      if p.a > 100 ∧ p.bright > 150 then some (px - x, py - y) else none

/-- Local coordinates of opaque (`a > 100`) pixels with brightness below 100. -/
def darkPositions (img : Img) (x y w h : Nat) : List (Nat × Nat) :=
  (rangeBetween y (min (y + h) img.height)).flatMap fun py =>
    (rangeBetween x (min (x + w) img.width)).filterMap fun px =>
      let p := img.pix px py
      if p.a > 100 ∧ p.bright < 100 then some (px - x, py - y) else none

/-- Sum of the first components of a position list. -/
def sumFst (l : List (Nat × Nat)) : Nat := (l.map Prod.fst).sum

/-- Sum of the second components of a position list. -/
def sumSnd (l : List (Nat × Nat)) : Nat := (l.map Prod.snd).sum

/-- Reference value: the squared Euclidean distance between the two
populations' centroids (`offset_magnitude ** 2` of the source), as an exact
rational. -/
def offsetSqQ (bp dp : List (Nat × Nat)) : ℚ :=
  ((sumFst bp : ℚ) / bp.length - (sumFst dp : ℚ) / dp.length) *
      ((sumFst bp : ℚ) / bp.length - (sumFst dp : ℚ) / dp.length) +
    ((sumSnd bp : ℚ) / bp.length - (sumSnd dp : ℚ) / dp.length) *
      ((sumSnd bp : ℚ) / bp.length - (sumSnd dp : ℚ) / dp.length)

/-- The common denominator of the centroid difference. -/
def popProd (bp dp : List (Nat × Nat)) : Int := (bp.length : Int) * dp.length

/-- The centroid distance squared, scaled by `(popProd bp dp)^2`: writing
`N = nb * nd`, the centroid offset vector is `(dx / N, dy / N)` with the
integer numerators below, so `offset_magnitude ** 2 = scaledOffsetSq / N^2`. -/
def scaledOffsetSq (bp dp : List (Nat × Nat)) : Int :=
  let dx : Int := (sumFst bp : Int) * dp.length - (sumFst dp : Int) * bp.length
  let dy : Int := (sumSnd bp : Int) * dp.length - (sumSnd dp : Int) * bp.length
  dx * dx + dy * dy

/-- `detect_spatial_pattern(image, x, y, w, h)`: centroid offset above 0.8
means shadow, below 0.3 means outline, otherwise (or with an empty
population) unknown.  The float comparison `offset_magnitude > 0.8` is
modelled exactly by squaring and clearing denominators:
`offsetSqQ > 16/25` iff `25 * scaledOffsetSq > 16 * popProd^2`
(see `detect_spatial_pattern_shadow_iff`). -/
def detect_spatial_pattern (img : Img) (x y w h : Nat) : SpatialPattern :=
  let bp := brightPositions img x y w h
  let dp := darkPositions img x y w h
  if bp.isEmpty || dp.isEmpty then .unknown
  else if 25 * scaledOffsetSq bp dp > 16 * (popProd bp dp * popProd bp dp) then .shadow
  else if 100 * scaledOffsetSq bp dp < 9 * (popProd bp dp * popProd bp dp) then .outline
  else .unknown

/-- Dominant colour channel of a pixel. -/
inductive Channel
  | R
  | G
  | B
deriving DecidableEq, Repr

/-- The enumerated classification types of the source. -/
inductive PatternType
  | monochrome_solid
  | outlined
  | shadowed
  | chromatic_outlined
  | chromatic_shadowed
  | chromatic_shadowed_bright
  | chromatic_bright
  | antialiased
  | multi_color
  | unknown
deriving DecidableEq, Repr

/-- An exact ratio of pixel counts, kept as the unreduced fraction
`num / den`.  The source stores these as Python floats; the embedding keeps
the exact rational value they approximate. -/
structure Ratio where
  num : Nat
  den : Nat
deriving DecidableEq, Repr

/-- The rational value of a ratio. -/
def Ratio.toRat (r : Ratio) : ℚ := (r.num : ℚ) / r.den

/-- Whether the ratio is at least `a / b` (for positive denominators this is
the exact comparison `a / b ≤ num / den`, written without division). -/
def Ratio.geFrac (r : Ratio) (a b : Nat) : Bool := decide (a * r.den ≤ b * r.num)

/-- The classification dict returned by `analyze_font_pattern`.  Absent dict
entries are `none`; the removal flags are read with `.get` (absent counts as
false), so they are plain `Bool`s. -/
structure PatternClassification where
  type : PatternType
  skip : Bool
  is_monospace : Option Bool := none
  max_width : Option Nat := none
  max_height : Option Nat := none
  dark_ratio : Option Ratio := none
  bright_ratio : Option Ratio := none
  white_ratio : Option Ratio := none
  black_ratio : Option Ratio := none
  dominant_channel : Option Channel := none
  unique_colors : Option Nat := none
  remove_shadow : Bool := false
  remove_outline : Bool := false
deriving DecidableEq, Repr

/-- One glyph-coordinate record of the JSON table. -/
structure GlyphSpec where
  x : Option Nat := none
  y : Option Nat := none
  w : Option Nat := none
  h : Option Nat := none
  rb : Option Nat := none
deriving DecidableEq, Repr

/-- A JSON value of the font table: a sub-object (glyph record or the
`default` record) or anything else. -/
inductive FontVal
  | obj (g : GlyphSpec)
  | other
deriving DecidableEq, Repr

/-- The parsed glyph-coordinate table, in document order (the source reads it
with `object_pairs_hook=OrderedDict`). -/
abbrev FontDef := List (String × FontVal)

/-- The reserved non-glyph keys skipped by every iteration of the source. -/
def metadataKeys : List String :=
  ["height", "origin", "scale", "wrap-width", "dynamic-size", "border",
   "overlays", "hooks", "subfonts", "notes", "case-fold", "null-character",
   "default", "explicit-origins", "us-font-aliases", "soviet-font-aliases"]

/-- Dict lookup by string key. -/
def lookupKey (fd : FontDef) (k : String) : Option FontVal :=
  (fd.find? fun kv => kv.1 == k).map (·.2)

/-- `font_data.get('default', {})`, restricted to object values. -/
def defaultsOf (fd : FontDef) : GlyphSpec :=
  match lookupKey fd "default" with
  | some (.obj g) => g
  | _ => {}

/-- The non-metadata object entries, i.e. the values looped over by
`for key, value in font_data.items()` with the
`key not in metadata_keys and isinstance(value, dict)` guard. -/
def dictEntries (fd : FontDef) : List GlyphSpec :=
  fd.filterMap fun kv =>
    if kv.1 ∈ metadataKeys then none
    else match kv.2 with
      | .obj g => some g
      | .other => none

/-- The collected widths list: a glyph's own `w` when present, else the
default `w` when one exists; glyphs with neither contribute nothing. -/
def collectedWidths (fd : FontDef) : List Nat :=
  (dictEntries fd).filterMap fun g => g.w.orElse fun _ => (defaultsOf fd).w

/-- The collected heights list: a glyph's own `h` when present, else the
default `h`, else the global height. -/
def collectedHeights (fd : FontDef) (height : Nat) : List Nat :=
  (dictEntries fd).map fun g => g.h.getD ((defaultsOf fd).h.getD height)

/-- Monospace flag and maximal dimensions, exactly as computed at the top of
`analyze_font_pattern`.  Note the Python truthiness in
`default_w if default_w else height`: a default width of 0 falls back to the
global height. -/
def monoStats (fd : FontDef) (height : Nat) : Bool × Nat × Nat :=
  let dW := (defaultsOf fd).w
  let widths := collectedWidths fd
  let heights := collectedHeights fd height
  let mono := dW.isSome || (!widths.isEmpty && widths.all fun v => v = widths.headD 0)
  let maxW :=
    if widths.isEmpty then
      match dW with
      | some v => if v = 0 then height else v
      | none => height
    else widths.foldl max 0
  let maxH := if heights.isEmpty then height else heights.foldl max 0
  (mono, maxW, maxH)

/-- A resolved sample rectangle. -/
structure Rect where
  x : Nat
  y : Nat
  w : Nat
  h : Nat
deriving DecidableEq, Repr

/-- Sample selection: codepoints 65, 97, 48 in order (looked up by their
decimal string keys), else the first non-metadata object entry with an `x`. -/
def sampleSpec (fd : FontDef) : Option GlyphSpec :=
  let try1 (k : String) : Option GlyphSpec :=
    match lookupKey fd k with
    | some (.obj g) => if g.x.isSome then some g else none
    | _ => none
  match try1 "65" with
  | some g => some g
  | none =>
    match try1 "97" with
    | some g => some g
    | none =>
      match try1 "48" with
      | some g => some g
      | none =>
        fd.findSome? fun kv =>
          if kv.1 ∈ metadataKeys then none
          else match kv.2 with
            | .obj g => if g.x.isSome then some g else none
            | .other => none

/-- The sampled glyph rectangle: the sample's own coordinates completed by the
defaults, width falling back to the global height (square fallback). -/
def sampleRect (fd : FontDef) (height : Nat) : Option Rect :=
  (sampleSpec fd).map fun g =>
    let d := defaultsOf fd
    ⟨g.x.getD 0, g.y.getD (d.y.getD 0), g.w.getD (d.w.getD height),
     g.h.getD (d.h.getD height)⟩

/-- The sampled pixels: every pixel of the clamped rectangle with `a > 10`. -/
def samplePixelsAt (img : Img) (rc : Rect) : List Pix :=
  (rangeBetween rc.y (min (rc.y + rc.h) img.height)).flatMap fun py =>
    (rangeBetween rc.x (min (rc.x + rc.w) img.width)).filterMap fun px =>
      let p := img.pix px py
      if p.a > 10 then some p else none

/-- White pixel: all channels above 200, opaque. -/
def isWhitePix (p : Pix) : Bool :=
  decide (p.r > 200) && decide (p.g > 200) && decide (p.b > 200) && decide (p.a > 200)

/-- Black pixel: all channels below 50, opaque. -/
def isBlackPix (p : Pix) : Bool :=
  decide (p.r < 50) && decide (p.g < 50) && decide (p.b < 50) && decide (p.a > 200)

/-- Gray pixel: mid-range channels deviating by less than 30, opaque. -/
def isGrayPix (p : Pix) : Bool :=
  decide (50 ≤ p.r) && decide (p.r ≤ 200) && decide (50 ≤ p.g) && decide (p.g ≤ 200) &&
  decide (50 ≤ p.b) && decide (p.b ≤ 200) &&
  decide (Nat.dist p.r p.g < 30) && decide (Nat.dist p.g p.b < 30) && decide (p.a > 200)

/-- Semi-transparent pixel: `10 < a < 240`. -/
def isSemiPix (p : Pix) : Bool := decide (10 < p.a) && decide (p.a < 240)

/-- `max(abs(r-g), abs(g-b), abs(r-b))`. -/
def maxPairDiff (p : Pix) : Nat :=
  max (Nat.dist p.r p.g) (max (Nat.dist p.g p.b) (Nat.dist p.r p.b))

/-- Chromatic pixel: opaque with a channel-pair difference above 40. -/
def isChromaticPix (p : Pix) : Bool :=
  decide (p.a > 200) && decide (maxPairDiff p > 40)

/-- Number of distinct RGB colours among the sampled pixels. -/
def colorCount (ps : List Pix) : Nat :=
  ((ps.map fun p => (p.r, p.g, p.b)).dedup).length

/-- Number of chromatic pixels. -/
def chromCount (ps : List Pix) : Nat := ps.countP isChromaticPix

/-- Opaque pixels brighter than 150 (`bright_pixels` of the chromatic branch). -/
def brightCount (ps : List Pix) : Nat :=
  ps.countP fun p => decide (p.a > 200) && decide (p.bright > 150)

/-- Opaque pixels with brightness at most 150 (`dark_pixels`). -/
def darkCount (ps : List Pix) : Nat :=
  ps.countP fun p => decide (p.a > 200) && decide (p.bright ≤ 150)

/-- Per-pixel dominant channels, collected over every pixel with `a > 200`
and a positive brightness — note: over all such pixels, not only the
chromatic ones. -/
def dominantChannels (ps : List Pix) : List Channel :=
  ps.filterMap fun p =>
    if p.a > 200 then
      if p.bright > 0 then
        some (if p.r = p.bright then .R else if p.g = p.bright then .G else .B)
      else none
    else none

/-- Count of the most frequent channel (the count part of
`Counter(...).most_common(1)[0]`; a `List Channel` only ever holds the three
channel values). -/
def maxChannelCount (l : List Channel) : Nat :=
  max (l.count .R) (max (l.count .G) (l.count .B))

/-- The most frequent channel; `Counter` breaks ties by first occurrence. -/
def mostCommonChannel (l : List Channel) : Channel :=
  let better (c d : Channel) : Bool :=
    decide (l.count c > l.count d) ||
      (decide (l.count c = l.count d) && decide (l.indexOf c < l.indexOf d))
  if better .G .R then (if better .B .G then .B else .G)
  else (if better .B .R then .B else .R)

/-- Classification of a non-empty pixel sample (`analyze_font_pattern` after
the pixel collection; the dimension fields are attached by `withDims`).
Nested Python conditionals that fall through (`if A: if B: return X` followed
by further checks) are flattened into conjunctions, which is equivalent
because the bodies are pure. -/
def classifySample (img : Img) (rc : Rect) (ps : List Pix) : PatternClassification :=
  let total := ps.length
  let whiteN := ps.countP isWhitePix
  let blackN := ps.countP isBlackPix
  let grayN := ps.countP isGrayPix
  let semiN := ps.countP isSemiPix
  -- Float threshold comparisons against ratios over `total ≥ 1` are written
  -- with cleared denominators: `count / total > c` iff `count * c.den > c.num * total`.
  if 10 * chromCount ps > total then
    -- chromatic branch: every path returns here
    let dcs := dominantChannels ps
    let multi : PatternClassification :=
      { type := .multi_color, skip := true, unique_colors := some (colorCount ps) }
    if dcs.isEmpty then multi
    else if 5 * maxChannelCount dcs > 4 * dcs.length then
      if brightCount ps > 0 ∧ darkCount ps > 0 then
        let dratio : Ratio := ⟨darkCount ps, total⟩
        let shadowRec : PatternClassification :=
          { type := .chromatic_shadowed, skip := false, dark_ratio := some dratio,
            remove_shadow := true, dominant_channel := some (mostCommonChannel dcs) }
        let outlineRec : PatternClassification :=
          { type := .chromatic_outlined, skip := false,
            bright_ratio := some ⟨brightCount ps, total⟩, dark_ratio := some dratio,
            remove_outline := true, dominant_channel := some (mostCommonChannel dcs) }
        match detect_spatial_pattern img rc.x rc.y rc.w rc.h with
        | .shadow => shadowRec
        | .outline => outlineRec
        | .unknown => if 10 * darkCount ps < 3 * total then shadowRec else outlineRec
      else multi
    else multi
  else
    if whiteN > 0 ∧ blackN > 0 ∧ total < 5 * whiteN ∧ total < 5 * blackN then
      { type := .outlined, skip := false, white_ratio := some ⟨whiteN, total⟩,
        black_ratio := some ⟨blackN, total⟩, remove_outline := true }
    else if blackN > 0 ∧ colorCount ps ≥ 2 ∧ 10 * blackN < 3 * total then
      { type := .shadowed, skip := false, black_ratio := some ⟨blackN, total⟩,
        remove_shadow := true }
    else if semiN > 0 ∨ 5 * grayN > total then
      { type := .antialiased, skip := false }
    else if colorCount ps = 1 then
      { type := .monochrome_solid, skip := false }
    else
      { type := .unknown, skip := false }

/-- Attach the monospace flag and maximal dimensions to a classification. -/
def withDims (ms : Bool × Nat × Nat) (p : PatternClassification) : PatternClassification :=
  { p with is_monospace := some ms.1, max_width := some ms.2.1, max_height := some ms.2.2 }

/-- `analyze_font_pattern(image, font_data, height)`.  No sample character
yields unknown with dimensions; a sample whose clamped rectangle holds no
pixel with `a > 10` yields the bare `{'type': 'unknown', 'skip': False}`
without the dimension fields. -/
def analyze_font_pattern (img : Img) (fd : FontDef) (height : Nat) : PatternClassification :=
  let ms := monoStats fd height
  match sampleRect fd height with
  | none => withDims ms { type := .unknown, skip := false }
  | some rc =>
    let ps := samplePixelsAt img rc
    if ps.isEmpty then { type := .unknown, skip := false }
    else withDims ms (classifySample img rc ps)

/-- The static `FONT_TYPE_OVERRIDES` table. -/
def FONT_TYPE_OVERRIDES : List (String × PatternType) :=
  [("sttngafu", .chromatic_shadowed_bright),
   ("mw", .antialiased),
   ("nesticle", .shadowed),
   ("ft2", .chromatic_shadowed),
   ("estsk", .chromatic_bright),
   ("goldeneye007", .antialiased),
   ("wof-red", .chromatic_bright),
   ("quake", .shadowed),
   ("psh", .chromatic_shadowed_bright),
   ("scnes", .chromatic_shadowed_bright),
   ("wof", .chromatic_bright),
   ("ff8", .chromatic_shadowed_bright),
   ("fft", .antialiased),
   ("karnovr", .chromatic_bright),
   ("pokesnap", .chromatic_shadowed_bright),
   ("rr", .chromatic_bright),
   ("smrpg", .chromatic_outlined),
   ("swatkats", .chromatic_outlined),
   ("smurfs3", .antialiased),
   ("sth2i", .antialiased),
   ("wea", .chromatic_bright)]

/-- Override lookup by key. -/
def lookupOverride (k : String) : Option PatternType :=
  (FONT_TYPE_OVERRIDES.find? fun kv => kv.1 == k).map (·.2)

/-- The keep-all family of forced types. -/
def keepAllTypes : List PatternType := [.antialiased, .unknown, .chromatic_bright]

/-- The shadow family of forced types. -/
def shadowTypes : List PatternType :=
  [.shadowed, .chromatic_shadowed, .chromatic_shadowed_bright]

/-- The outline family of forced types. -/
def outlineTypes : List PatternType := [.outlined, .chromatic_outlined]

/-- Whole-font override application (`generate_yaff`, main font): the forced
type overwrites `type` and recomputes both removal flags by family. -/
def applyMainOverride (game : String) (p : PatternClassification) : PatternClassification :=
  match lookupOverride game with
  | none => p
  | some t =>
    let q := { p with type := t }
    if t ∈ keepAllTypes then { q with remove_shadow := false, remove_outline := false }
    else if t ∈ shadowTypes then { q with remove_shadow := true, remove_outline := false }
    else if t ∈ outlineTypes then { q with remove_shadow := false, remove_outline := true }
    else q

/-- Subfont override application (`generate_yaff`, subfont loop): the forced
type overwrites `type`, but the removal flags are only cleared for the forced
types antialiased and unknown; every other forced type leaves them as the
automatic detection set them. -/
def applySubfontOverride (game sub : String) (p : PatternClassification) :
    PatternClassification :=
  match lookupOverride (game ++ "-" ++ sub) with
  | none => p
  | some t =>
    let q := { p with type := t }
    if t = .antialiased ∨ t = .unknown then
      { q with remove_shadow := false, remove_outline := false }
    else q

/-- The classification in effect for the main font when the skip/emit decision
is made: automatic classification followed by the override table. -/
def mainClassification (img : Img) (fd : FontDef) (height : Nat) (game : String) :
    PatternClassification :=
  applyMainOverride game (analyze_font_pattern img fd height)

/-- `pattern.get('is_monospace', False)` as read by the emitter. -/
def reportedMonospace (p : PatternClassification) : Bool := p.is_monospace.getD false

/-- `pattern.get('max_width', height)` as read by the emitter. -/
def reportedMaxWidth (p : PatternClassification) (height : Nat) : Nat :=
  p.max_width.getD height

/-- `pattern.get('max_height', height)` as read by the emitter. -/
def reportedMaxHeight (p : PatternClassification) (height : Nat) : Nat :=
  p.max_height.getD height

/-- The per-pixel ink predicate of `extract_glyph_pixels`.  A `none` pixel is
the raising `getpixel`, resolved to not-ink by the `except` handler.  The
branch order mirrors the source: outline removal first, then shadow removal,
then the chromatic-bright highlight stripping, then the opacity default. -/
def is_inked (pat : Option PatternClassification) (threshold : Nat) (px : Option Pix) :
    Bool :=
  match px with
  | none => false
  | some p =>
    match pat with
    | none => decide (p.a > threshold)
    | some pc =>
      if pc.remove_outline then
        decide (p.a > threshold) &&
          (if pc.type = .chromatic_outlined then decide (p.bright > 150)
           else if decide (p.r > 200) && decide (p.g > 200) && decide (p.b > 200) then true
           else if decide (p.r < 50) && decide (p.g < 50) && decide (p.b < 50) then false
           else true)
      else if pc.remove_shadow then
        decide (p.a > threshold) &&
          (if pc.type = .chromatic_shadowed_bright then decide (p.bright > 150)
           else if pc.type = .chromatic_shadowed then
             -- `pattern.get('dark_ratio', 0) >= 0.4`
             (if (pc.dark_ratio.getD ⟨0, 1⟩).geFrac 2 5 then decide (p.bright < 100)
              else decide (p.bright > 150))
           else !(decide (p.r < 50) && decide (p.g < 50) && decide (p.b < 50)))
      else if pc.type = .chromatic_bright then
        decide (p.a > threshold) && !(decide (p.bright > 180))
      else decide (p.a > threshold)

/-- One emitted glyph row. -/
def glyphRow (img : Img) (x y w : Nat) (pat : Option PatternClassification)
    (threshold : Nat) (py : Nat) : String :=
  String.mk ((List.range w).map fun px =>
    if is_inked pat threshold (pixAt img (x + px) (y + py)) then '@' else '.')

/-- `extract_glyph_pixels(image, x, y, width, height, threshold, pattern)`:
the `-` sentinel for a zero-area rectangle, otherwise one row per scanline. -/
def extract_glyph_pixels (img : Img) (x y w h : Nat) (threshold : Nat)
    (pat : Option PatternClassification) : List String :=
  if w = 0 ∨ h = 0 then ["-"]
  else (List.range h).map (glyphRow img x y w pat threshold)

/-- `get_unicode_codepoint`: identity except the two `CP1252_TO_UNICODE`
remaps 0x91 and 0x92. -/
def get_unicode_codepoint (n : Nat) : Nat :=
  if n = 145 then 0x2018 else if n = 146 then 0x2019 else n

/-- Lowercase hexadecimal, zero-padded to at least four digits
(Python `{:04x}`). -/
def toHex4Lower (n : Nat) : String :=
  let d := Nat.toDigits 16 n
  String.mk (List.replicate (4 - d.length) '0' ++ d)

/-- Uppercase hexadecimal, zero-padded to at least four digits
(Python `{:04X}`). -/
def toHex4Upper (n : Nat) : String :=
  let d := (Nat.toDigits 16 n).map Char.toUpper
  String.mk (List.replicate (4 - d.length) '0' ++ d)

/-- Decimal parse of a key string (the `int(key)` of the source; Python's
`int` also tolerates signs and surrounding whitespace, but the glyph tables
use canonical decimal keys). -/
def parseDec (s : String) : Option Nat :=
  if s.data ≠ [] ∧ s.data.all Char.isDigit then
    some (s.data.foldl (fun n c => n * 10 + (c.toNat - 48)) 0)
  else none

/-- The valid character entries of `generate_font_section`: non-metadata
object values with an `x` whose key parses as a decimal codepoint. -/
def validChars (fd : FontDef) : List (Nat × GlyphSpec) :=
  fd.filterMap fun kv =>
    if kv.1 ∈ metadataKeys then none
    else match kv.2 with
      | .obj g => if g.x.isSome then (parseDec kv.1).map fun n => (n, g) else none
      | .other => none

/-- Orders character entries by decimal codepoint. -/
def codeLe (a b : Nat × GlyphSpec) : Prop := a.1 ≤ b.1

instance : DecidableRel codeLe := fun a b => (inferInstance : Decidable (a.1 ≤ b.1))

instance : IsTotal (Nat × GlyphSpec) codeLe := ⟨fun a b => Nat.le_total a.1 b.1⟩

instance : IsTrans (Nat × GlyphSpec) codeLe := ⟨fun _ _ _ hab hbc => Nat.le_trans hab hbc⟩

/-- `chars.sort(key=lambda x: x[0])`: a stable sort by codepoint. -/
def charsSorted (fd : FontDef) : List (Nat × GlyphSpec) :=
  List.insertionSort codeLe (validChars fd)

/-- The human-readable comment above a glyph block. -/
def charComment (u : Nat) : String :=
  "# Character: " ++
    (if 32 ≤ u ∧ u ≤ 126 then String.mk [Char.ofNat u] else "U+" ++ toHex4Upper u)

/-- One emitted glyph block: comment, codepoint tag, indented ink rows, the
optional metric lines preceded by one blank line, and the trailing blank
separator. -/
def glyphBlock (img : Img) (d : GlyphSpec) (height : Nat)
    (pat : Option PatternClassification) (cd : Nat × GlyphSpec) : List String :=
  let g := cd.2
  let x := g.x.getD 0
  let y := g.y.getD (d.y.getD 0)
  let w := g.w.getD (d.w.getD height)
  let h := g.h.getD (d.h.getD height)
  let u := get_unicode_codepoint cd.1
  let rows := (extract_glyph_pixels img x y w h 128 pat).map fun r => "    " ++ r
  let metricLines :=
    (if h < height then ["    shift-up: " ++ toString (height - h)] else []) ++
      (match g.rb with
       | some v => ["    right-bearing: " ++ toString v]
       | none => [])
  let metrics := if metricLines.isEmpty then [] else "" :: metricLines
  charComment u :: ("u+" ++ toHex4Lower u ++ ":") :: (rows ++ metrics ++ [""])

/-- `generate_font_section`: the glyph blocks in ascending codepoint order,
plus the character count. -/
def generate_font_section (img : Img) (fd : FontDef) (height : Nat)
    (pat : Option PatternClassification) : List String × Nat :=
  let cs := charsSorted fd
  (((cs.map (glyphBlock img (defaultsOf fd) height pat))).flatten, cs.length)

/-! ## Concrete inputs used by the counterexamples and witnesses -/

/-- A fully transparent 1x1 sheet. -/
def imgT : Img := ⟨1, 1, fun _ _ => ⟨0, 0, 0, 0⟩⟩

/-- A one-glyph table whose sample rectangle is the whole 1x1 sheet. -/
def fdT : FontDef := [("65", .obj { x := some 0, w := some 1, h := some 1 })]

/-- A 10x10 sheet with dark columns 0-4 and bright columns 6-9 (column 5 is
transparent): the shadow layout of the spec's spatial-analysis example. -/
def imgShadowLayout : Img :=
  ⟨10, 10, fun px _py =>
    if px ≤ 4 then ⟨50, 50, 50, 255⟩
    else if px ≥ 6 then ⟨255, 255, 255, 255⟩
    else ⟨0, 0, 0, 0⟩⟩

/-- A 10x10 sheet with a 2px dark border around a solid 6x6 bright interior:
the outline layout of the spec's spatial-analysis example. -/
def imgOutlineLayout : Img :=
  ⟨10, 10, fun px py =>
    if 2 ≤ px ∧ px ≤ 7 ∧ 2 ≤ py ∧ py ≤ 7 then ⟨255, 255, 255, 255⟩
    else ⟨0, 0, 0, 255⟩⟩

/-- A 2x1 sheet holding one pure red and one pure green pixel: its sample is
classified multi_color. -/
def imgRedGreen : Img :=
  ⟨2, 1, fun px _ => if px = 0 then ⟨255, 0, 0, 255⟩ else ⟨0, 255, 0, 255⟩⟩

/-- The glyph table sampling the whole 2x1 sheet. -/
def fdRedGreen : FontDef :=
  [("65", .obj { x := some 0, y := some 0, w := some 2, h := some 1 })]

/-- A 10x1 sheet: one red, one green, eight dull reddish-gray pixels.  Its
chromatic pixels split evenly between R and G, but the dominant channels over
all opaque pixels are 9:1 for R. -/
def imgDullRed : Img :=
  ⟨10, 1, fun px _ =>
    if px = 0 then ⟨255, 0, 0, 255⟩
    else if px = 1 then ⟨0, 255, 0, 255⟩
    else ⟨100, 90, 90, 255⟩⟩

/-- The glyph table sampling the whole 10x1 sheet. -/
def fdDullRed : FontDef :=
  [("65", .obj { x := some 0, y := some 0, w := some 10, h := some 1 })]

/-- An all-black 5x20 sheet. -/
def imgBlack : Img := ⟨5, 20, fun _ _ => ⟨0, 0, 0, 255⟩⟩

/-- Two glyphs: one with width 5, one with no width at all (and no default
width), in a font of global height 20. -/
def fdMixedWidths : FontDef :=
  [("65", .obj { x := some 0, w := some 5 }), ("66", .obj { x := some 0 })]

/-- An all-white 5x1 sheet. -/
def imgWhite : Img := ⟨5, 1, fun _ _ => ⟨255, 255, 255, 255⟩⟩

/-- A one-glyph table of width 5. -/
def fdWidth5 : FontDef := [("65", .obj { x := some 0, w := some 5, h := some 1 })]

/-- The same table with a second glyph of width 7: the sampled rectangle is
unchanged but the width statistics differ. -/
def fdWidth57 : FontDef := fdWidth5 ++ [("66", .obj { x := some 0, w := some 7, h := some 1 })]

/-- An automatically detected shadowed classification, as the subfont
override path would receive it. -/
def exShadowAuto : PatternClassification :=
  { type := .shadowed, skip := false, black_ratio := some ⟨1, 10⟩, remove_shadow := true,
    is_monospace := some true, max_width := some 8, max_height := some 8 }

/-! ## Helper lemmas -/

@[simp] theorem withDims_type (ms : Bool × Nat × Nat) (p : PatternClassification) :
    (withDims ms p).type = p.type := rfl

@[simp] theorem withDims_skip (ms : Bool × Nat × Nat) (p : PatternClassification) :
    (withDims ms p).skip = p.skip := rfl

@[simp] theorem withDims_dark_ratio (ms : Bool × Nat × Nat) (p : PatternClassification) :
    (withDims ms p).dark_ratio = p.dark_ratio := rfl

@[simp] theorem withDims_bright_ratio (ms : Bool × Nat × Nat) (p : PatternClassification) :
    (withDims ms p).bright_ratio = p.bright_ratio := rfl

@[simp] theorem withDims_white_ratio (ms : Bool × Nat × Nat) (p : PatternClassification) :
    (withDims ms p).white_ratio = p.white_ratio := rfl

@[simp] theorem withDims_black_ratio (ms : Bool × Nat × Nat) (p : PatternClassification) :
    (withDims ms p).black_ratio = p.black_ratio := rfl

@[simp] theorem withDims_dominant_channel (ms : Bool × Nat × Nat) (p : PatternClassification) :
    (withDims ms p).dominant_channel = p.dominant_channel := rfl

@[simp] theorem withDims_unique_colors (ms : Bool × Nat × Nat) (p : PatternClassification) :
    (withDims ms p).unique_colors = p.unique_colors := rfl

@[simp] theorem withDims_remove_shadow (ms : Bool × Nat × Nat) (p : PatternClassification) :
    (withDims ms p).remove_shadow = p.remove_shadow := rfl

@[simp] theorem withDims_remove_outline (ms : Bool × Nat × Nat) (p : PatternClassification) :
    (withDims ms p).remove_outline = p.remove_outline := rfl

@[simp] theorem withDims_is_monospace (ms : Bool × Nat × Nat) (p : PatternClassification) :
    (withDims ms p).is_monospace = some ms.1 := rfl

@[simp] theorem withDims_max_width (ms : Bool × Nat × Nat) (p : PatternClassification) :
    (withDims ms p).max_width = some ms.2.1 := rfl

@[simp] theorem withDims_max_height (ms : Bool × Nat × Nat) (p : PatternClassification) :
    (withDims ms p).max_height = some ms.2.2 := rfl

/-- The override application never touches the skip flag. -/
theorem applyMainOverride_skip (game : String) (p : PatternClassification) :
    (applyMainOverride game p).skip = p.skip := by
  unfold applyMainOverride
  cases lookupOverride game with
  | none => rfl
  | some t => dsimp only; split_ifs <;> rfl

/-- The automatic classification of a sample sets skip exactly on the
multi_color type. -/
theorem classifySample_skip_iff (img : Img) (rc : Rect) (ps : List Pix) :
    (classifySample img rc ps).skip = true ↔
      (classifySample img rc ps).type = PatternType.multi_color := by
  unfold classifySample
  repeat' (split <;> try simp)

/-- The automatic classifier as a whole sets skip exactly on multi_color. -/
theorem analyze_skip_iff (img : Img) (fd : FontDef) (height : Nat) :
    (analyze_font_pattern img fd height).skip = true ↔
      (analyze_font_pattern img fd height).type = PatternType.multi_color := by
  unfold analyze_font_pattern
  cases sampleRect fd height with
  | none => simp
  | some rc =>
    dsimp only
    split
    · simp
    · rw [withDims_skip, withDims_type]
      exact classifySample_skip_iff img rc (samplePixelsAt img rc)

/-! ## Claims C1 and C2 -/

/-- C1 (amended): a whole-font override key forces the type and recomputes
both removal flags by family (keep-all clears both, the shadow family sets
remove_shadow only, the outline family sets remove_outline only); a
(font, subfont) override key forces the type but clears the flags only for
the forced types antialiased and unknown, leaving them at their automatically
detected values for every other forced type. -/
theorem override_flag_families (game sub : String) (p : PatternClassification)
    (t : PatternType) :
    (lookupOverride game = some t →
      (applyMainOverride game p).type = t ∧
      (t ∈ keepAllTypes →
        (applyMainOverride game p).remove_shadow = false ∧
        (applyMainOverride game p).remove_outline = false) ∧
      (t ∈ shadowTypes →
        (applyMainOverride game p).remove_shadow = true ∧
        (applyMainOverride game p).remove_outline = false) ∧
      (t ∈ outlineTypes →
        (applyMainOverride game p).remove_shadow = false ∧
        (applyMainOverride game p).remove_outline = true)) ∧
    (lookupOverride (game ++ "-" ++ sub) = some t →
      (applySubfontOverride game sub p).type = t ∧
      ((t = .antialiased ∨ t = .unknown) →
        (applySubfontOverride game sub p).remove_shadow = false ∧
        (applySubfontOverride game sub p).remove_outline = false) ∧
      (¬(t = .antialiased ∨ t = .unknown) →
        (applySubfontOverride game sub p).remove_shadow = p.remove_shadow ∧
        (applySubfontOverride game sub p).remove_outline = p.remove_outline)) := by
  constructor
  · intro h
    simp only [applyMainOverride, h]
    cases t <;> simp [keepAllTypes, shadowTypes, outlineTypes]
  · intro h
    simp only [applySubfontOverride, h]
    cases t <;> simp

/-- C1 witness: the whole-font key mw forces antialiased (keep-all family),
clearing both removal flags of an automatically shadowed classification. -/
theorem override_flag_families_witness :
    (applyMainOverride "mw" exShadowAuto).type = PatternType.antialiased ∧
    (applyMainOverride "mw" exShadowAuto).remove_shadow = false ∧
    (applyMainOverride "mw" exShadowAuto).remove_outline = false := by
  have h := (override_flag_families "mw" "" exShadowAuto .antialiased).1 (by decide)
  exact ⟨h.1, (h.2.1 (by decide)).1, (h.2.1 (by decide)).2⟩

/-- C1 counterexample: the subfont override key wof-red forces
chromatic_bright, a keep-all-family type, yet the subfont override path
leaves an automatically set remove_shadow flag in place instead of clearing
it as the claim states. -/
theorem subfont_override_flags_cex :
    lookupOverride ("wof" ++ "-" ++ "red") = some PatternType.chromatic_bright ∧
    PatternType.chromatic_bright ∈ keepAllTypes ∧
    (applySubfontOverride "wof" "red" exShadowAuto).remove_shadow = true := by decide

/-- C2 (amended): the skip flag is set by the automatic classification, true
exactly when the automatic type is multi_color, and is preserved unchanged by
the override application; the post-override type may therefore differ from
multi_color while skip stays true. -/
theorem skip_iff_auto_multi_color (img : Img) (fd : FontDef) (height : Nat)
    (game : String) :
    (mainClassification img fd height game).skip =
      (analyze_font_pattern img fd height).skip ∧
    ((analyze_font_pattern img fd height).skip = true ↔
      (analyze_font_pattern img fd height).type = PatternType.multi_color) :=
  ⟨applyMainOverride_skip game (analyze_font_pattern img fd height),
   analyze_skip_iff img fd height⟩

/-- C2 counterexample: a font whose sample is classified multi_color but
whose game key mw is overridden to antialiased reaches the skip/emit decision
with skip = true and type = antialiased, refuting the claimed iff for the
classification in effect after an override. -/
theorem skip_without_multi_color_cex :
    (mainClassification imgRedGreen fdRedGreen 1 "mw").skip = true ∧
    (mainClassification imgRedGreen fdRedGreen 1 "mw").type =
      PatternType.antialiased := by decide

/-! ## Claim C5 -/

/-- C5 (amended): classification is a pure function of its inputs, and every
field except the monospace flag and the maximal dimensions is determined by
the sprite sheet and the resolved sample rectangle alone; the dimension
fields additionally depend on the rest of the glyph table. -/
theorem classification_congruence (img : Img) (fd1 fd2 : FontDef) (h1 h2 : Nat)
    (hs : sampleRect fd1 h1 = sampleRect fd2 h2) :
    (analyze_font_pattern img fd1 h1).type = (analyze_font_pattern img fd2 h2).type ∧
    (analyze_font_pattern img fd1 h1).skip = (analyze_font_pattern img fd2 h2).skip ∧
    (analyze_font_pattern img fd1 h1).dark_ratio =
      (analyze_font_pattern img fd2 h2).dark_ratio ∧
    (analyze_font_pattern img fd1 h1).bright_ratio =
      (analyze_font_pattern img fd2 h2).bright_ratio ∧
    (analyze_font_pattern img fd1 h1).white_ratio =
      (analyze_font_pattern img fd2 h2).white_ratio ∧
    (analyze_font_pattern img fd1 h1).black_ratio =
      (analyze_font_pattern img fd2 h2).black_ratio ∧
    (analyze_font_pattern img fd1 h1).dominant_channel =
      (analyze_font_pattern img fd2 h2).dominant_channel ∧
    (analyze_font_pattern img fd1 h1).unique_colors =
      (analyze_font_pattern img fd2 h2).unique_colors ∧
    (analyze_font_pattern img fd1 h1).remove_shadow =
      (analyze_font_pattern img fd2 h2).remove_shadow ∧
    (analyze_font_pattern img fd1 h1).remove_outline =
      (analyze_font_pattern img fd2 h2).remove_outline := by
  unfold analyze_font_pattern
  rw [← hs]
  cases sampleRect fd1 h1 with
  | none => simp
  | some rc =>
    dsimp only
    by_cases hE : (samplePixelsAt img rc).isEmpty <;> simp [hE]

/-- C5 witness: the congruence applied to two concrete tables that share a
sample rectangle. -/
theorem classification_congruence_witness :
    (analyze_font_pattern imgWhite fdWidth5 1).type =
      (analyze_font_pattern imgWhite fdWidth57 1).type ∧
    (analyze_font_pattern imgWhite fdWidth5 1).skip =
      (analyze_font_pattern imgWhite fdWidth57 1).skip := by
  have h := classification_congruence imgWhite fdWidth5 fdWidth57 1 1 (by decide)
  exact ⟨h.1, h.2.1⟩

/-- C5 counterexample: identical sheet, identical sampled rectangle and
identical global height, yet the monospace fields of the two classifications
differ, because the width statistics read the whole glyph table. -/
theorem classification_not_rect_determined_cex :
    sampleRect fdWidth5 1 = sampleRect fdWidth57 1 ∧
    (analyze_font_pattern imgWhite fdWidth5 1).is_monospace ≠
      (analyze_font_pattern imgWhite fdWidth57 1).is_monospace := by decide

/-! ## Claim C10 -/

/-- C10: when the sampled rectangle holds no pixel with alpha above 10, the
classifier returns exactly type unknown with skip false, omitting the
monospace and dimension fields entirely, and the emitter's reads then default
to a proportional font whose maximal dimensions are the global height. -/
theorem empty_sample_unknown (img : Img) (fd : FontDef) (height : Nat) (rc : Rect)
    (hrc : sampleRect fd height = some rc)
    (hps : samplePixelsAt img rc = []) :
    analyze_font_pattern img fd height =
      { type := PatternType.unknown, skip := false } ∧
    reportedMonospace (analyze_font_pattern img fd height) = false ∧
    reportedMaxWidth (analyze_font_pattern img fd height) height = height ∧
    reportedMaxHeight (analyze_font_pattern img fd height) height = height := by
  have h : analyze_font_pattern img fd height =
      { type := PatternType.unknown, skip := false } := by
    unfold analyze_font_pattern
    rw [hrc]
    simp [hps]
  exact ⟨h, by rw [h]; rfl, by rw [h]; rfl, by rw [h]; rfl⟩

/-- C10 witness: a fully transparent sample. -/
theorem empty_sample_unknown_witness :
    analyze_font_pattern imgT fdT 1 = { type := PatternType.unknown, skip := false } ∧
    reportedMonospace (analyze_font_pattern imgT fdT 1) = false ∧
    reportedMaxWidth (analyze_font_pattern imgT fdT 1) 1 = 1 := by
  have h := empty_sample_unknown imgT fdT 1 ⟨0, 0, 1, 1⟩ (by decide) (by decide)
  exact ⟨h.1, h.2.1, h.2.2.1⟩

/-! ## Claim C4 -/

/-- A list each of whose members equals a fixed value is pairwise equal. -/
theorem pairwise_eq_of_forall_eq {a : Nat} {t : List Nat} (h : ∀ x ∈ t, x = a) :
    List.Pairwise (fun u v => u = v) t := by
  induction t with
  | nil => exact List.Pairwise.nil
  | cons b s ih =>
    refine List.Pairwise.cons (fun y hy => ?_) (ih fun x hx => h x (List.mem_cons_of_mem _ hx))
    rw [h b (List.mem_cons_self b s), h y (List.mem_cons_of_mem _ hy)]

/-- The all-equal-to-the-head test of `monoStats` holds exactly when the list
is pairwise equal. -/
theorem all_eq_headD_iff (l : List Nat) :
    ((l.all fun v => v = l.headD 0) = true) ↔ List.Pairwise (fun u v => u = v) l := by
  rw [List.all_eq_true]
  cases l with
  | nil => simp
  | cons a t =>
    simp only [List.headD_cons, List.mem_cons, List.pairwise_cons, decide_eq_true_eq]
    constructor
    · intro h
      refine ⟨fun b hb => (h b (Or.inr hb)).symm, ?_⟩
      exact pairwise_eq_of_forall_eq fun x hx => h x (Or.inr hx)
    · rintro ⟨h1, _⟩ x hx
      rcases hx with rfl | hx
      · rfl
      · exact (h1 x hx).symm

/-- Left fold of `max` dominates the seed and every member. -/
theorem foldl_max_le : ∀ (l : List Nat) (a : Nat),
    a ≤ l.foldl max a ∧ ∀ x ∈ l, x ≤ l.foldl max a := by
  intro l
  induction l with
  | nil => intro a; exact ⟨Nat.le_refl a, by simp⟩
  | cons b t ih =>
    intro a
    refine ⟨Nat.le_trans (Nat.le_max_left a b) (ih (max a b)).1, ?_⟩
    intro x hx
    rcases List.mem_cons.mp hx with rfl | hx
    · exact Nat.le_trans (Nat.le_max_right a x) (ih (max a x)).1
    · exact (ih (max a b)).2 x hx

/-- Left fold of `max` lands in the list or at the seed. -/
theorem foldl_max_mem : ∀ (l : List Nat) (a : Nat),
    l.foldl max a ∈ l ∨ l.foldl max a = a := by
  intro l
  induction l with
  | nil => intro a; exact Or.inr rfl
  | cons b t ih =>
    intro a
    simp only [List.foldl_cons]
    rcases ih (max a b) with h | h
    · exact Or.inl (List.mem_cons_of_mem _ h)
    · rcases Nat.le_total a b with hab | hab
      · rw [Nat.max_eq_right hab] at h ⊢
        rw [h]
        exact Or.inl (List.mem_cons_self b t)
      · rw [Nat.max_eq_left hab] at h ⊢
        exact Or.inr h

/-- For a non-empty list the fold from 0 is a member attaining the maximum. -/
theorem foldl_max_zero_spec (l : List Nat) (hne : l ≠ []) :
    l.foldl max 0 ∈ l ∧ ∀ x ∈ l, x ≤ l.foldl max 0 := by
  refine ⟨?_, (foldl_max_le l 0).2⟩
  rcases foldl_max_mem l 0 with h | h
  · exact h
  · cases l with
    | nil => exact absurd rfl hne
    | cons b t =>
      have hb := (foldl_max_le (b :: t) 0).2 b (List.mem_cons_self b t)
      rw [h] at hb
      have : b = 0 := Nat.le_antisymm hb (Nat.zero_le b)
      rw [h, ← this]
      exact List.mem_cons_self b t

/-- C4 (amended): with a usable (non-transparent) sample, the classifier sets
is_monospace exactly when a default width exists or the collected widths
(each glyph's own width, else the default width, glyphs with neither being
excluded rather than falling back to the global height) are non-empty and all
equal; max_width is the maximum of the collected widths when any exist; and
max_height is the maximum of the resolved glyph heights (own height, else
default height, else global height), or the global height for a glyph-less
table. -/
theorem mono_dims_amended (img : Img) (fd : FontDef) (height : Nat) (rc : Rect)
    (hrc : sampleRect fd height = some rc)
    (hne : samplePixelsAt img rc ≠ []) :
    ((analyze_font_pattern img fd height).is_monospace = some true ↔
      ((defaultsOf fd).w.isSome ∨
        (collectedWidths fd ≠ [] ∧
          List.Pairwise (fun u v => u = v) (collectedWidths fd)))) ∧
    (collectedWidths fd ≠ [] →
      ∃ m, (analyze_font_pattern img fd height).max_width = some m ∧
        m ∈ collectedWidths fd ∧ ∀ x ∈ collectedWidths fd, x ≤ m) ∧
    (collectedHeights fd height ≠ [] →
      ∃ m, (analyze_font_pattern img fd height).max_height = some m ∧
        m ∈ collectedHeights fd height ∧ ∀ x ∈ collectedHeights fd height, x ≤ m) ∧
    (collectedHeights fd height = [] →
      (analyze_font_pattern img fd height).max_height = some height) := by
  have hb : ¬(samplePixelsAt img rc).isEmpty := by
    simpa [List.isEmpty_iff] using hne
  have hfields : (analyze_font_pattern img fd height).is_monospace =
      some (monoStats fd height).1 ∧
      (analyze_font_pattern img fd height).max_width = some (monoStats fd height).2.1 ∧
      (analyze_font_pattern img fd height).max_height = some (monoStats fd height).2.2 := by
    unfold analyze_font_pattern
    rw [hrc]
    simp [hb]
  obtain ⟨hm, hw, hh⟩ := hfields
  refine ⟨?_, ?_, ?_, ?_⟩
  · rw [hm]
    unfold monoStats
    dsimp only
    rw [Option.some_inj]
    rw [Bool.or_eq_true, Bool.and_eq_true]
    constructor
    · rintro (h | ⟨h1, h2⟩)
      · exact Or.inl h
      · exact Or.inr ⟨by simpa [List.isEmpty_iff] using h1, (all_eq_headD_iff _).mp h2⟩
    · rintro (h | ⟨h1, h2⟩)
      · exact Or.inl h
      · exact Or.inr ⟨by simpa [List.isEmpty_iff] using h1, (all_eq_headD_iff _).mpr h2⟩
  · intro hcw
    refine ⟨(monoStats fd height).2.1, hw, ?_⟩
    have : (monoStats fd height).2.1 = (collectedWidths fd).foldl max 0 := by
      unfold monoStats
      dsimp only
      rw [if_neg (by simpa [List.isEmpty_iff] using hcw)]
    rw [this]
    exact foldl_max_zero_spec _ hcw
  · intro hch
    refine ⟨(monoStats fd height).2.2, hh, ?_⟩
    have : (monoStats fd height).2.2 = (collectedHeights fd height).foldl max 0 := by
      unfold monoStats
      dsimp only
      rw [if_neg (by simpa [List.isEmpty_iff] using hch)]
    rw [this]
    exact foldl_max_zero_spec _ hch
  · intro hch
    have : (monoStats fd height).2.2 = height := by
      unfold monoStats
      dsimp only
      rw [if_pos (by simpa [List.isEmpty_iff] using hch)]
    rw [hh, this]

/-- C4 witness: the amended statement applied to a concrete two-glyph table. -/
theorem mono_dims_amended_witness :
    (analyze_font_pattern imgBlack fdMixedWidths 20).is_monospace = some true ∧
    (∃ m, (analyze_font_pattern imgBlack fdMixedWidths 20).max_width = some m ∧
      m ∈ collectedWidths fdMixedWidths) := by
  have h := mono_dims_amended imgBlack fdMixedWidths 20 ⟨0, 0, 5, 20⟩ (by decide) (by decide)
  refine ⟨h.1.mpr (Or.inr ⟨by decide, by decide⟩), ?_⟩
  obtain ⟨m, hm, hmem, _⟩ := h.2.1 (by decide)
  exact ⟨m, hm, hmem⟩

/-- C4 counterexample: glyph 66 has neither its own width nor a default
width, so the claim resolves it to the global height 20 and predicts
max_width 20 and a proportional font; the code drops it from the statistics
and reports max_width 5 with is_monospace true. -/
theorem mono_dims_square_fallback_cex :
    ((dictEntries fdMixedWidths).map fun g =>
        g.w.getD (((defaultsOf fdMixedWidths).w).getD 20)) = [5, 20] ∧
    (analyze_font_pattern imgBlack fdMixedWidths 20).max_width = some 5 ∧
    (analyze_font_pattern imgBlack fdMixedWidths 20).is_monospace = some true := by decide

/-! ## Claim C6 -/

/-- C6: for a chromatic_shadowed classification with shadow removal in force,
an opaque pixel (alpha above the threshold 128) is ink exactly per the
recorded dark ratio: at least 0.4 means dark pixels (brightness below 100)
are the ink, otherwise bright pixels (brightness above 150) are; pixels at or
below the alpha threshold are never ink. -/
theorem chromatic_shadowed_ink (p : PatternClassification) (r g b a : Nat)
    (ht : p.type = PatternType.chromatic_shadowed)
    (hs : p.remove_shadow = true)
    (ho : p.remove_outline = false) :
    is_inked (some p) 128 (some ⟨r, g, b, a⟩) =
      (decide (a > 128) &&
        (if (p.dark_ratio.getD ⟨0, 1⟩).geFrac 2 5 then decide (max3 r g b < 100)
         else decide (max3 r g b > 150))) ∧
    (a ≤ 128 → is_inked (some p) 128 (some ⟨r, g, b, a⟩) = false) := by
  have h1 : is_inked (some p) 128 (some ⟨r, g, b, a⟩) =
      (decide (a > 128) &&
        (if (p.dark_ratio.getD ⟨0, 1⟩).geFrac 2 5 then decide (max3 r g b < 100)
         else decide (max3 r g b > 150))) := by
    unfold is_inked
    dsimp only
    rw [ho, hs, ht]
    simp [Pix.bright]
  refine ⟨h1, fun hle => ?_⟩
  rw [h1]
  have : decide (a > 128) = false := by simpa using Nat.not_lt.mpr hle
  rw [this, Bool.false_and]

/-- A chromatic_shadowed classification with a recorded dark ratio of 1/2. -/
def exChromShadow : PatternClassification :=
  { type := .chromatic_shadowed, skip := false, dark_ratio := some ⟨1, 2⟩,
    remove_shadow := true }

/-- C6 witness: a dark opaque pixel under a dark-majority classification is
ink. -/
theorem chromatic_shadowed_ink_witness :
    is_inked (some exChromShadow) 128 (some ⟨10, 20, 30, 200⟩) = true := by
  have h := chromatic_shadowed_ink exChromShadow 10 20 30 200 rfl rfl rfl
  rw [h.1]
  decide

/-! ## Claim C3 -/

/-- The dominant-channel population as the claim describes it: computed over
exactly the chromatic pixels with alpha above 200.  The code instead collects
dominant channels over every pixel with alpha above 200 and positive
brightness, chromatic or not; this definition exists to state the difference. -/
def dominantChannelsClaimed (ps : List Pix) : List Channel :=
  (ps.filter isChromaticPix).filterMap fun p =>
    if p.bright > 0 then
      some (if p.r = p.bright then .R else if p.g = p.bright then .G else .B)
    else none

/-- C3 (amended): when the chromatic pixels exceed 10% of the sample, the
classifier computes the per-pixel dominant channel over every pixel with
alpha above 200 and positive brightness (not only the chromatic ones), enters
the single-hue branch exactly when that population is non-empty, its most
common channel strictly exceeds 80% of it, and the bright/dark split is
non-degenerate; otherwise the result is multi_color with skip true. -/
theorem chromatic_branch_amended (img : Img) (fd : FontDef) (height : Nat) (rc : Rect)
    (hrc : sampleRect fd height = some rc)
    (hne : samplePixelsAt img rc ≠ [])
    (hchrom : 10 * chromCount (samplePixelsAt img rc) > (samplePixelsAt img rc).length) :
    (¬(dominantChannels (samplePixelsAt img rc) ≠ [] ∧
        5 * maxChannelCount (dominantChannels (samplePixelsAt img rc)) >
          4 * (dominantChannels (samplePixelsAt img rc)).length ∧
        brightCount (samplePixelsAt img rc) > 0 ∧
        darkCount (samplePixelsAt img rc) > 0) →
      (analyze_font_pattern img fd height).type = PatternType.multi_color ∧
      (analyze_font_pattern img fd height).skip = true) ∧
    ((dominantChannels (samplePixelsAt img rc) ≠ [] ∧
        5 * maxChannelCount (dominantChannels (samplePixelsAt img rc)) >
          4 * (dominantChannels (samplePixelsAt img rc)).length ∧
        brightCount (samplePixelsAt img rc) > 0 ∧
        darkCount (samplePixelsAt img rc) > 0) →
      ((analyze_font_pattern img fd height).type = PatternType.chromatic_shadowed ∨
        (analyze_font_pattern img fd height).type = PatternType.chromatic_outlined) ∧
      (analyze_font_pattern img fd height).skip = false) := by
  have hb : ¬(samplePixelsAt img rc).isEmpty := by
    simpa [List.isEmpty_iff] using hne
  have ha : analyze_font_pattern img fd height =
      withDims (monoStats fd height) (classifySample img rc (samplePixelsAt img rc)) := by
    unfold analyze_font_pattern
    rw [hrc]
    simp [hb]
  rw [ha]
  unfold classifySample
  dsimp only
  rw [if_pos hchrom]
  constructor
  · intro hnot
    by_cases h1 : (dominantChannels (samplePixelsAt img rc)).isEmpty
    · rw [if_pos h1]
      exact ⟨rfl, rfl⟩
    · rw [if_neg h1]
      by_cases h2 : 5 * maxChannelCount (dominantChannels (samplePixelsAt img rc)) >
          4 * (dominantChannels (samplePixelsAt img rc)).length
      · rw [if_pos h2]
        by_cases h3 : brightCount (samplePixelsAt img rc) > 0 ∧
            darkCount (samplePixelsAt img rc) > 0
        · exact absurd ⟨by simpa [List.isEmpty_iff] using h1, h2, h3⟩ hnot
        · rw [if_neg h3]
          exact ⟨rfl, rfl⟩
      · rw [if_neg h2]
        exact ⟨rfl, rfl⟩
  · rintro ⟨h1, h2, h3⟩
    rw [if_neg (by simpa [List.isEmpty_iff] using h1), if_pos h2, if_pos ⟨h3.1, h3.2⟩]
    split
    · exact ⟨Or.inl rfl, rfl⟩
    · exact ⟨Or.inr rfl, rfl⟩
    · split
      · exact ⟨Or.inl rfl, rfl⟩
      · exact ⟨Or.inr rfl, rfl⟩

/-- C3 witness: the single-hue branch taken at a concrete sample. -/
theorem chromatic_branch_amended_witness :
    ((analyze_font_pattern imgDullRed fdDullRed 1).type =
        PatternType.chromatic_shadowed ∨
      (analyze_font_pattern imgDullRed fdDullRed 1).type =
        PatternType.chromatic_outlined) ∧
    (analyze_font_pattern imgDullRed fdDullRed 1).skip = false := by
  have h := chromatic_branch_amended imgDullRed fdDullRed 1 ⟨0, 0, 10, 1⟩
    (by decide) (by decide) (by decide)
  exact h.2 ⟨by decide, by decide, by decide, by decide⟩

/-- C3 counterexample: a sample whose chromatic pixels split their dominant
channels 1:1 (so the claim's dominance test over exactly the chromatic pixels
fails, predicting multi_color with skip), yet the code, measuring dominance
over all opaque pixels at 9:1, classifies it chromatic_outlined without
skipping. -/
theorem chromatic_dominance_population_cex :
    sampleRect fdDullRed 1 = some ⟨0, 0, 10, 1⟩ ∧
    10 * chromCount (samplePixelsAt imgDullRed ⟨0, 0, 10, 1⟩) >
      (samplePixelsAt imgDullRed ⟨0, 0, 10, 1⟩).length ∧
    5 * maxChannelCount (dominantChannelsClaimed (samplePixelsAt imgDullRed ⟨0, 0, 10, 1⟩)) <
      4 * (dominantChannelsClaimed (samplePixelsAt imgDullRed ⟨0, 0, 10, 1⟩)).length ∧
    (analyze_font_pattern imgDullRed fdDullRed 1).type = PatternType.chromatic_outlined ∧
    (analyze_font_pattern imgDullRed fdDullRed 1).skip = false := by decide

/-! ## Claim C7 -/

/-- Both populations non-empty make the denominator positive. -/
theorem popProd_pos (bp dp : List (Nat × Nat)) (hb : bp ≠ []) (hd : dp ≠ []) :
    (0 : Int) < popProd bp dp := by
  unfold popProd
  have h1 : 0 < bp.length := List.length_pos.mpr hb
  have h2 : 0 < dp.length := List.length_pos.mpr hd
  positivity

/-- The integer arithmetic of `detect_spatial_pattern` computes exactly the
squared centroid distance, scaled by the squared product of the population
sizes. -/
theorem offsetSqQ_eq (bp dp : List (Nat × Nat)) (hb : bp ≠ []) (hd : dp ≠ []) :
    offsetSqQ bp dp =
      (scaledOffsetSq bp dp : ℚ) / ((popProd bp dp : ℚ) * (popProd bp dp : ℚ)) := by
  have hb0 : (bp.length : ℚ) ≠ 0 := by
    exact_mod_cast fun hh => hb (List.length_eq_zero.mp (by exact_mod_cast hh))
  have hd0 : (dp.length : ℚ) ≠ 0 := by
    exact_mod_cast fun hh => hd (List.length_eq_zero.mp (by exact_mod_cast hh))
  unfold offsetSqQ scaledOffsetSq popProd
  push_cast
  field_simp
  ring

/-- The shadow test of `detect_spatial_pattern` is the exact comparison of the
centroid distance squared with 0.8 squared. -/
theorem scaled_shadow_iff (bp dp : List (Nat × Nat)) (hb : bp ≠ []) (hd : dp ≠ []) :
    (25 * scaledOffsetSq bp dp > 16 * (popProd bp dp * popProd bp dp)) ↔
      offsetSqQ bp dp > 16/25 := by
  have hpp := popProd_pos bp dp hb hd
  have hppQ : (0 : ℚ) < (popProd bp dp : ℚ) * (popProd bp dp : ℚ) := by
    have h : (0 : ℚ) < (popProd bp dp : ℚ) := by exact_mod_cast hpp
    positivity
  rw [offsetSqQ_eq bp dp hb hd, gt_iff_lt, gt_iff_lt, div_lt_div_iff₀ (by norm_num) hppQ]
  rw [show (scaledOffsetSq bp dp : ℚ) * 25 = ((25 * scaledOffsetSq bp dp : Int) : ℚ) by
        push_cast; ring]
  rw [show (16 : ℚ) * ((popProd bp dp : ℚ) * (popProd bp dp : ℚ)) =
        ((16 * (popProd bp dp * popProd bp dp) : Int) : ℚ) by push_cast; ring]
  rw [Int.cast_lt]

/-- The outline test of `detect_spatial_pattern` is the exact comparison of
the centroid distance squared with 0.3 squared. -/
theorem scaled_outline_iff (bp dp : List (Nat × Nat)) (hb : bp ≠ []) (hd : dp ≠ []) :
    (100 * scaledOffsetSq bp dp < 9 * (popProd bp dp * popProd bp dp)) ↔
      offsetSqQ bp dp < 9/100 := by
  have hpp := popProd_pos bp dp hb hd
  have hppQ : (0 : ℚ) < (popProd bp dp : ℚ) * (popProd bp dp : ℚ) := by
    have h : (0 : ℚ) < (popProd bp dp : ℚ) := by exact_mod_cast hpp
    positivity
  rw [offsetSqQ_eq bp dp hb hd, div_lt_div_iff₀ hppQ (by norm_num)]
  rw [show (scaledOffsetSq bp dp : ℚ) * 100 = ((100 * scaledOffsetSq bp dp : Int) : ℚ) by
        push_cast; ring]
  rw [show (9 : ℚ) * ((popProd bp dp : ℚ) * (popProd bp dp : ℚ)) =
        ((9 * (popProd bp dp * popProd bp dp) : Int) : ℚ) by push_cast; ring]
  rw [Int.cast_lt]

/-- C7: the spatial analysis returns unknown when either brightness
population is empty, shadow exactly when the squared centroid distance
exceeds 0.8 squared, outline exactly when it is below 0.3 squared (and
unknown otherwise); in particular the spec's two layouts — dark columns 0-4
against bright columns 6-9 of a 10x10 rectangle, and a 2px dark border
around a solid 6x6 bright interior — yield shadow and outline respectively. -/
theorem spatial_pattern_thresholds :
    (∀ (img : Img) (x y w h : Nat),
      ((brightPositions img x y w h = [] ∨ darkPositions img x y w h = []) →
        detect_spatial_pattern img x y w h = SpatialPattern.unknown) ∧
      (brightPositions img x y w h ≠ [] → darkPositions img x y w h ≠ [] →
        ((detect_spatial_pattern img x y w h = SpatialPattern.shadow ↔
            offsetSqQ (brightPositions img x y w h) (darkPositions img x y w h) > 16/25) ∧
          (detect_spatial_pattern img x y w h = SpatialPattern.outline ↔
            offsetSqQ (brightPositions img x y w h) (darkPositions img x y w h) < 9/100)))) ∧
    detect_spatial_pattern imgShadowLayout 0 0 10 10 = SpatialPattern.shadow ∧
    detect_spatial_pattern imgOutlineLayout 0 0 10 10 = SpatialPattern.outline := by
  refine ⟨?_, by decide, by decide⟩
  intro img x y w h
  constructor
  · intro hor
    unfold detect_spatial_pattern
    have hcond : ((brightPositions img x y w h).isEmpty ||
        (darkPositions img x y w h).isEmpty) = true := by
      rcases hor with h1 | h1 <;> simp [h1]
    rw [if_pos hcond]
  · intro hbne hdne
    have hcond : ¬(((brightPositions img x y w h).isEmpty ||
        (darkPositions img x y w h).isEmpty) = true) := by
      simp [List.isEmpty_iff, hbne, hdne]
    unfold detect_spatial_pattern
    rw [if_neg hcond]
    have hpp := popProd_pos _ _ hbne hdne
    have hppQ : (0 : ℚ) <
        (popProd (brightPositions img x y w h) (darkPositions img x y w h) : ℚ) *
          (popProd (brightPositions img x y w h) (darkPositions img x y w h) : ℚ) := by
      have h : (0 : ℚ) <
          (popProd (brightPositions img x y w h) (darkPositions img x y w h) : ℚ) := by
        exact_mod_cast hpp
      positivity
    constructor
    · rw [← scaled_shadow_iff _ _ hbne hdne]
      by_cases hA : 25 * scaledOffsetSq (brightPositions img x y w h)
          (darkPositions img x y w h) >
          16 * (popProd (brightPositions img x y w h) (darkPositions img x y w h) *
            popProd (brightPositions img x y w h) (darkPositions img x y w h))
      · rw [if_pos hA]
        simp [hA]
      · rw [if_neg hA]
        simp only [hA, iff_false]
        split <;> simp
    · rw [← scaled_outline_iff _ _ hbne hdne]
      by_cases hA : 25 * scaledOffsetSq (brightPositions img x y w h)
          (darkPositions img x y w h) >
          16 * (popProd (brightPositions img x y w h) (darkPositions img x y w h) *
            popProd (brightPositions img x y w h) (darkPositions img x y w h))
      · rw [if_pos hA]
        constructor
        · intro hcontra
          exact absurd hcontra (by simp)
        · intro hB
          exfalso
          rw [gt_iff_lt] at hA
          linarith [hpp.le, mul_pos hpp hpp]
      · rw [if_neg hA]
        by_cases hB : 100 * scaledOffsetSq (brightPositions img x y w h)
            (darkPositions img x y w h) <
            9 * (popProd (brightPositions img x y w h) (darkPositions img x y w h) *
              popProd (brightPositions img x y w h) (darkPositions img x y w h))
        · rw [if_pos hB]
          simp [hB]
        · rw [if_neg hB]
          simp [hB]

/-- C7 witness: an empty population yields unknown on the transparent sheet,
and the shadow layout's centroid distance indeed exceeds 0.8. -/
theorem spatial_pattern_thresholds_witness :
    detect_spatial_pattern imgT 0 0 1 1 = SpatialPattern.unknown ∧
    offsetSqQ (brightPositions imgShadowLayout 0 0 10 10)
      (darkPositions imgShadowLayout 0 0 10 10) > 16/25 := by
  refine ⟨(spatial_pattern_thresholds.1 imgT 0 0 1 1).1 (Or.inl (by decide)), ?_⟩
  exact (((spatial_pattern_thresholds.1 imgShadowLayout 0 0 10 10).2
    (by decide) (by decide)).1).mp (by decide)

/-! ## Claim C8 -/

/-- C8: a zero-width or zero-height rectangle extracts to the single-element
sentinel, never an empty row list; otherwise extraction yields exactly
`height` rows of exactly `width` characters each, drawn from ink/not-ink, and
a pixel outside the sheet bounds always renders as not-ink. -/
theorem extraction_shape (img : Img) (x y w h : Nat)
    (pat : Option PatternClassification) :
    (w = 0 ∨ h = 0 → extract_glyph_pixels img x y w h 128 pat = ["-"]) ∧
    (0 < w → 0 < h →
      (extract_glyph_pixels img x y w h 128 pat).length = h ∧
      (∀ s ∈ extract_glyph_pixels img x y w h 128 pat,
        s.length = w ∧ ∀ c ∈ s.data, c = '@' ∨ c = '.') ∧
      (∀ py px : Nat, py < h → px < w →
        (img.width ≤ x + px ∨ img.height ≤ y + py) →
        (extract_glyph_pixels img x y w h 128 pat)[py]? =
          some (glyphRow img x y w pat 128 py) ∧
        (glyphRow img x y w pat 128 py).data[px]? = some '.')) := by
  constructor
  · intro h0
    unfold extract_glyph_pixels
    rw [if_pos h0]
  · intro hw hh
    have hno : ¬(w = 0 ∨ h = 0) := by omega
    have hE : extract_glyph_pixels img x y w h 128 pat =
        (List.range h).map (glyphRow img x y w pat 128) := by
      unfold extract_glyph_pixels
      rw [if_neg hno]
    refine ⟨by rw [hE]; simp, ?_, ?_⟩
    · intro s hs
      rw [hE] at hs
      obtain ⟨py, _, rfl⟩ := List.mem_map.mp hs
      constructor
      · show ((List.range w).map _).length = w
        simp
      · intro c hc
        unfold glyphRow at hc
        obtain ⟨px, _, hpx⟩ := List.mem_map.mp hc
        split at hpx
        · exact Or.inl hpx.symm
        · exact Or.inr hpx.symm
    · intro py px hpy hpx hout
      constructor
      · rw [hE]
        simp [List.getElem?_map, List.getElem?_range, hpy]
      · show ((List.range w).map _)[px]? = some '.'
        have hnone : pixAt img (x + px) (y + py) = none := by
          unfold pixAt
          rw [if_neg]
          omega
        simp [List.getElem?_map, List.getElem?_range, hpx, hnone, is_inked]

/-- C8 witness: the sentinel for a zero-width glyph, the row count of a 2x1
glyph, and the not-ink rendering of its out-of-bounds column on a 1x1 sheet. -/
theorem extraction_shape_witness :
    extract_glyph_pixels imgT 0 0 0 5 128 none = ["-"] ∧
    (extract_glyph_pixels imgT 0 0 2 1 128 none).length = 1 ∧
    (glyphRow imgT 0 0 2 none 128 0).data[1]? = some '.' := by
  refine ⟨(extraction_shape imgT 0 0 0 5 none).1 (Or.inl rfl), ?_, ?_⟩
  · exact ((extraction_shape imgT 0 0 2 1 none).2 (by decide) (by decide)).1
  · exact (((extraction_shape imgT 0 0 2 1 none).2 (by decide) (by decide)).2.2 0 1
      (by decide) (by decide) (Or.inl (by decide))).2

/-! ## Claim C9 -/

/-- C9: the emitted document is the concatenation of the glyph blocks of the
valid character entries, sorted into ascending numeric codepoint order, each
block's codepoint tag (its second line) being the lowercase-hex Unicode tag
of the source decimal codepoint, and the decimal-to-Unicode mapping is the
identity except the two legacy remaps 0x91 and 0x92. -/
theorem emit_order_and_mapping (img : Img) (fd : FontDef) (height : Nat)
    (pat : Option PatternClassification) :
    (generate_font_section img fd height pat).1 =
      ((charsSorted fd).map (glyphBlock img (defaultsOf fd) height pat)).flatten ∧
    List.Sorted (fun a b => a ≤ b) ((charsSorted fd).map Prod.fst) ∧
    (∀ cd ∈ charsSorted fd,
      (glyphBlock img (defaultsOf fd) height pat cd)[1]? =
        some ("u+" ++ toHex4Lower (get_unicode_codepoint cd.1) ++ ":")) ∧
    (∀ n : Nat, n ≠ 145 → n ≠ 146 → get_unicode_codepoint n = n) ∧
    get_unicode_codepoint 145 = 0x2018 ∧
    get_unicode_codepoint 146 = 0x2019 := by
  refine ⟨rfl, ?_, ?_, ?_, rfl, rfl⟩
  · exact List.pairwise_map.mpr (List.sorted_insertionSort codeLe (validChars fd))
  · intro cd _
    simp [glyphBlock]
  · intro n h1 h2
    unfold get_unicode_codepoint
    rw [if_neg h1, if_neg h2]

/-- C9 witness: the glyph table with the single key 65 emits the tag u+0041,
and 65 maps to itself. -/
theorem emit_order_and_mapping_witness :
    get_unicode_codepoint 65 = 65 ∧
    (glyphBlock imgT (defaultsOf fdT) 1 none
        (65, { x := some 0, w := some 1, h := some 1 }))[1]? = some "u+0041:" := by
  refine ⟨(emit_order_and_mapping imgT fdT 1 none).2.2.2.1 65 (by decide) (by decide), ?_⟩
  have h := (emit_order_and_mapping imgT fdT 1 none).2.2.1
    (65, { x := some 0, w := some 1, h := some 1 }) (by decide)
  rw [h]
  decide

end DeathGen
